import Mathlib

/-!
Verification development for the pysh pipeline DSL.

Embedded here, translated from the repository sources:
* the argument encoder `ExternalSpec` (`src/pysh/dsl/command.py`);
* the pipeline builder node classes (`src/pysh/dsl/pipeline.py`):
  `Pipeline`, `Command`, `Pipe`, `Piperr`, `Redirect`, their clone
  (`__copy__`), suppress (`__invert__`), call, slice and redirect
  protocols;
* the status translation and the monitor loop of `src/demo-stream.py`;
* the `to_status` conversion (`src/pysh/command.py`, `src/pysh/dsl/pipeline.py`).

The result aggregator is not implemented anywhere under `src/`
(`Result.wait` is an empty stub and `ExternalSpec.run` raises), so the
aggregation policy is modelled from the spec where noted.
-/

namespace Pysh

/-- Per-stage termination status.  The spec's tagged
`Exited(code) | Signaled(signal)` variant (spec section 3, RunningProcess). -/
inductive Status where
  | exited (code : Int)
  | signaled (sig : Int)
  deriving DecidableEq, BEq, Repr

/-- Translation of a raw `Popen.poll()` result into a `Status`, as done by the
monitor loop of `src/demo-stream.py` lines 216-219: a negative raw code means
the process was killed by a signal (`Signal {-ret}`), a non-negative one is a
plain exit code (`Exit {ret}`). -/
def statusOfPoll (ret : Int) : Status :=
  if ret < 0 then .signaled (-ret) else .exited ret

/-! ## Python values used as command arguments -/

/-- The Python values that flow through `ExternalSpec` argument encoding:
booleans, `None`, integers, strings and (non-string) iterables. -/
inductive Value where
  | bool (b : Bool)
  | none
  | int (n : Int)
  | str (s : String)
  | list (vs : List Value)

mutual

/-- Python `repr` for the values above (strings are quoted, as inside a
stringified list). -/
def pyRepr : Value → String
  | .bool true => "True"
  | .bool false => "False"
  | .none => "None"
  | .int n => toString n
  | .str s => "\x27" ++ s ++ "\x27"
  | .list vs => "[" ++ pyReprList vs ++ "]"

/-- Comma-separated `repr` of the elements of a Python list. -/
def pyReprList : List Value → String
  | [] => ""
  | [v] => pyRepr v
  | v :: vs => pyRepr v ++ ", " ++ pyReprList vs

end

/-- Python `str()` for the values above. -/
def pyStr : Value → String
  | .str s => s
  | v => pyRepr v

/-- Whether the value `is True` (Python identity test: only `True` itself). -/
def Value.isTrue : Value → Bool
  | .bool true => true
  | _ => false

/-- Whether the value satisfies Python's `value in (False, None)` (an equality
test, so `0 == False` also matches). -/
def Value.eqFalseOrNone : Value → Bool
  | .bool false => true
  | .none => true
  | .int 0 => true
  | _ => false

/-- `value = [value]` unless the value is a non-string iterable
(`isinstance(value, str) or not isinstance(value, Iterable)` in the source). -/
def Value.asIterable : Value → List Value
  | .list vs => vs
  | v => [v]

/-! ## ExternalSpec (src/pysh/dsl/command.py) -/

/-- The `repeat` setting of `ExternalSpec`: Python `Union[bool, str]`, where a
string means "join the values with this separator". -/
inductive RepeatRule where
  | rtrue
  | rfalse
  | joinWith (s : String)
  deriving DecidableEq, Repr

/-- `ExternalSpec.__init__` defaults (`src/pysh/dsl/command.py` lines 113-124).
`valuepre`/`argspre` are `Optional[str]`. -/
structure ExternalSpec where
  command : String
  ok_status : List Int := [0]
  hyphenate : Bool := true
  rep : RepeatRule := .rtrue
  shortpre : String := "-"
  longpre : String := "--"
  valuepre : Option String := none
  argspre : Option String := none
  deriving DecidableEq, Repr

/-- Python truthiness of an `Optional[str]` setting (`if self.valuepre:`,
`if self.argspre:`): `None` and the empty string are falsy. -/
def strTruthy : Option String → Bool
  | Option.none => false
  | Option.some s => !(s == "")

/-- `option.replace('_', '-')`: the pattern is the single character `_`, so
the replacement is a per-character substitution. -/
def hyphenated (s : String) : String :=
  String.mk (s.data.map (fun c => if c == '_' then '-' else c))

/-- `option.startswith('-')`: the first character is a dash. -/
def startsWithDash (s : String) : Bool :=
  s.data.head? == Option.some '-'

/-- The option token built by `_parse_option` before value handling:
hyphenation (`option.replace('_', '-')`), then a `shortpre`/`longpre` token is
prepended unless the (hyphenated) name already starts with `-`. -/
def optionToken (spec : ExternalSpec) (option : String) : String :=
  let option := if spec.hyphenate then hyphenated option else option
  let is_short := option.length == 1
  if !(startsWithDash option) then
    (if is_short then spec.shortpre else spec.longpre) ++ option
  else option

/-- The `if self.valuepre: ... else: ...` tail of `_parse_option`: glue each
value to the option token with `valuepre`, or emit option and value as two
tokens per value (`sum([[option, str(v)] for v in value], [])`). -/
def emitValues (spec : ExternalSpec) (option : String) (vals : List Value) :
    List String :=
  if strTruthy spec.valuepre then
    vals.map (fun v => option ++ spec.valuepre.getD "" ++ pyStr v)
  else
    (vals.map (fun v => [option, pyStr v])).flatten

/-- `ExternalSpec._parse_option` (`src/pysh/dsl/command.py` lines 126-151). -/
def parse_option (spec : ExternalSpec) (option : String) (value : Value) :
    List String :=
  let option := optionToken spec option
  if value.isTrue then [option]
  else if value.eqFalseOrNone then []
  else
    let vals := value.asIterable
    match spec.rep with
    | .rfalse => option :: vals.map pyStr
    | .rtrue => emitValues spec option vals
    | .joinWith s =>
        emitValues spec option [Value.str (String.intercalate s (vals.map pyStr))]

/-- `ExternalSpec.parse_args` (`src/pysh/dsl/command.py` lines 153-181):
keyword options first in call-insertion order, with the `_` keyword appended
to the positional list instead; then `argspre` whenever it is truthy; then the
positional arguments, each non-string iterable flattened and stringified. -/
def parse_args (spec : ExternalSpec) (args : List Value)
    (kwargs : List (String × Value)) : List String :=
  let folded := kwargs.foldl
    (fun (acc : List Value × List String) kv =>
      if kv.fst == "_" then (acc.fst ++ [kv.snd], acc.snd)
      else (acc.fst, acc.snd ++ parse_option spec kv.fst kv.snd))
    (args, [])
  let args := folded.fst
  let result := folded.snd
  let result := if strTruthy spec.argspre then result ++ [spec.argspre.getD ""] else result
  args.foldl (fun result arg => result ++ arg.asIterable.map pyStr) result

/-! ## Pipeline builder nodes (src/pysh/dsl/pipeline.py) -/

/-- One entry of `Command.args`: a verbatim token recorded by slicing, an
`(args, kwargs)` group recorded by calling, or some other value recorded by
slicing with a non-string key. -/
inductive ArgEntry where
  | str (s : String)
  | group (pos : List Value) (kw : List (String × Value))
  | val (v : Value)

/-- Redirect targets accepted by `Pipeline.__gt__`: `IOBase` sinks, strings,
bytes, and `PurePath`/`Path` paths. -/
inductive RTarget where
  | path (p : String)
  | str (s : String)
  | bytes (b : List Nat)
  | sink (fd : Nat)
  deriving DecidableEq, Repr

/-- The runtime state of a builder node object.  A constructed object always
has all attributes of its class set; the `*Bare` constructors stand for `Pipe`
/ `Piperr` / `Redirect` instances created by the inherited
`Pipeline.__copy__` (`cls.__new__(cls)` plus `clone.reckless = ...`), whose
`lhs`/`rhs`/`target`/`appending` attributes were never assigned (accessing
them raises `AttributeError`). -/
inductive PNode where
  | command (spec : Nat) (args : List ArgEntry) (no_raise : List Int) (reckless : Bool)
  | pipe (lhs rhs : PNode) (reckless : Bool)
  | pipeBare (reckless : Bool)
  | piperr (lhs rhs : PNode) (reckless : Bool)
  | piperrBare (reckless : Bool)
  | redirect (lhs : PNode) (target : RTarget) (appending : Bool) (reckless : Bool)
  | redirectBare (reckless : Bool)

/-- The `reckless` attribute, present on every `Pipeline` instance. -/
def PNode.reckless : PNode → Bool
  | .command _ _ _ r => r
  | .pipe _ _ r => r
  | .pipeBare r => r
  | .piperr _ _ r => r
  | .piperrBare r => r
  | .redirect _ _ _ r => r
  | .redirectBare r => r

/-- Assignment `obj.reckless = b`. -/
def PNode.setReckless : PNode → Bool → PNode
  | .command s a n _, b => .command s a n b
  | .pipe l r _, b => .pipe l r b
  | .pipeBare _, b => .pipeBare b
  | .piperr l r _, b => .piperr l r b
  | .piperrBare _, b => .piperrBare b
  | .redirect l t ap _, b => .redirect l t ap b
  | .redirectBare _, b => .redirectBare b

/-- `__copy__` as dispatched in `src/pysh/dsl/pipeline.py`:
`Command.__copy__` (lines 182-187) copies `spec` (same object), fresh list
copies of `args` and `no_raise`, and `reckless` via `super().__copy__()`;
every other node class inherits `Pipeline.__copy__` (lines 33-37), which
copies only `reckless` and leaves the remaining attributes unset. -/
def pcopy : PNode → PNode
  | .command s a n r => .command s a n r
  | .pipe _ _ r => .pipeBare r
  | .pipeBare r => .pipeBare r
  | .piperr _ _ r => .piperrBare r
  | .piperrBare r => .piperrBare r
  | .redirect _ _ _ r => .redirectBare r
  | .redirectBare r => .redirectBare r

/-- `Pipeline.__invert__` (lines 137-142): clone the receiver, then toggle the
clone's `reckless` flag. -/
def invert (n : PNode) : PNode :=
  let clone := pcopy n
  clone.setReckless (!clone.reckless)

/-! ### The `>` redirect protocol -/

/-- A right operand of `a > other`: another builder node, a supported redirect
target, or any other Python value. -/
inductive GtOperand where
  | node (n : PNode)
  | val (t : RTarget)
  | other

/-- `Pipeline.__gt__` (lines 87-99): `NotImplemented` (`Option.none`) when the
operand is itself a `Pipeline` or is not one of `IOBase`, `str`, `bytes`,
`PurePath`, `Path`; otherwise `Redirect(self, other)` (appending defaults to
`False`, and `Pipeline.__init__` starts the node with `reckless = False`). -/
def gtMethod (self : PNode) : GtOperand → Option PNode
  | .node _ => Option.none
  | .val t => Option.some (.redirect self t false false)
  | .other => Option.none

/-- `Pipeline.__lt__` (lines 101-103): always `NotImplemented`. -/
def ltMethod (_self : PNode) (_other : GtOperand) : Option PNode :=
  Option.none

/-- Python's evaluation of `a > t`: try `a.__gt__(t)`; on `NotImplemented`
try the reflected method of the operand (`Pipeline.__lt__` when the operand is
itself a node, which also yields `NotImplemented`; other operand types do not
order themselves against a `Pipeline`); when both decline, raise `TypeError`. -/
def gtDispatch (a : PNode) (t : GtOperand) : Except String PNode :=
  match gtMethod a t with
  | Option.some n => Except.ok n
  | Option.none =>
      match t with
      | .node tn =>
          match ltMethod tn (.node a) with
          | Option.some n => Except.ok n
          | Option.none => Except.error "TypeError"
      | _ => Except.error "TypeError"

/-! ### `invoke` and `to_status` -/

/-- The `Result` object (`src/pysh/command.py` lines 557-564): wraps the
expression with `status = None` and empty captured output. -/
structure ResultObj where
  expr : PNode
  status : Option Int
  stdout : List Nat
  stderr : List Nat

/-- `Result.__init__`. -/
def mkResult (e : PNode) : ResultObj :=
  { expr := e, status := Option.none, stdout := [], stderr := [] }

/-- The runtime values `to_status` can observe: the dynamic
`isinstance(result, int)` check distinguishes an `int` from a `Result`
instance. -/
inductive PyObject where
  | int (n : Int)
  | result (r : ResultObj)

/-- `isinstance(x, int)`. -/
def PyObject.isInstInt : PyObject → Bool
  | .int _ => true
  | .result _ => false

/-- `Expr.invoke` / `Pipeline.invoke`: `return Result(self)`. -/
def invoke (p : PNode) : PyObject :=
  .result (mkResult p)

/-- `to_status` (`src/pysh/command.py` lines 200-203, identically
`src/pysh/dsl/pipeline.py` lines 54-57): `result = self.invoke()`, then
`assert isinstance(result, int)` (an `AssertionError` when the check fails),
then `return result.status` (which on an actual `int` would itself fail, as
ints have no `status` attribute). -/
def to_status (p : PNode) : Except String (Option Int) :=
  let result := invoke p
  if result.isInstInt then
    match result with
    | .result r => Except.ok r.status
    | .int _ => Except.error "AttributeError"
  else Except.error "AssertionError"

/-- `__int__` delegates to `to_status`. -/
def toIntDunder (p : PNode) : Except String (Option Int) :=
  to_status p

/-! ## The completion-monitor loop (src/demo-stream.py lines 184-230) -/

/-- A launched process as the monitor sees it: its pid and the result a
non-blocking `poll()` would return right now (`None` while still running). -/
structure Proc where
  pid : Nat
  pollResult : Option Int
  deriving DecidableEq, Repr

/-- Monitor state: the processes whose descriptors are still registered with
the selector, and the remaining-jobs counter `cnt`. -/
structure MonState where
  registered : List Proc
  cnt : Nat
  deriving DecidableEq, Repr

/-- One iteration of the monitor loop, given the event list returned by
`selector.select(.1)`.  Faithful to the source: when the select call times out
with no events the body prints a TODO message and `continue`s — no process is
polled.  Otherwise each event's process is polled; a process found terminated
is unregistered, its status is recorded via the `ret < 0` translation, and
`cnt` is decremented.  Returns `((polled pids, recorded statuses), state)`. -/
def monitorIteration (events : List Proc) (st : MonState) :
    (List Nat × List (Nat × Status)) × MonState :=
  if events.isEmpty then
    (([], []), st)
  else
    events.foldl
      (fun acc p =>
        match p.pollResult with
        | Option.none => ((acc.1.1 ++ [p.pid], acc.1.2), acc.2)
        | Option.some ret =>
            ((acc.1.1 ++ [p.pid], acc.1.2 ++ [(p.pid, statusOfPoll ret)]),
             { registered := acc.2.registered.filter (fun q => q.pid != p.pid),
               cnt := acc.2.cnt - 1 }))
      (([], []), st)

/-! ## Result aggregation (spec section 4.6) -/

/-- Modelled from the spec: the per-stage record the Result Aggregator
consumes — the stage's `Status`, the stage's own ignore set
(`defaultOkStatuses` plus any explicit catch list) and whether the stage sits
under a `Suppress` annotation.  The aggregator is not implemented under
`src/` (`Result.wait` is an empty stub and `ExternalSpec.run` raises), so
this definition follows the spec's words in section 4.6. -/
structure StageOutcome where
  status : Status
  ignore : List Status
  suppressed : Bool
  deriving DecidableEq, Repr

/-- Modelled from the spec: a stage is failing iff its status is not
`Exited(0)` and is not in its own ignore set (spec section 4.6). -/
def stageFailing (o : StageOutcome) : Bool :=
  !(o.status == Status.exited 0) && !(o.ignore.contains o.status)

/-- Modelled from the spec: the pipeline's value is the last stage's status
and its failure flag is the logical OR of all unsuppressed per-stage failures
(spec section 4.6); `none` on an empty stage list. -/
def aggregate (stages : List StageOutcome) : Option (Status × Bool) :=
  match stages.getLast? with
  | Option.none => Option.none
  | Option.some lastS =>
      Option.some (lastS.status, stages.any (fun o => stageFailing o && !o.suppressed))

/-! ## Slice-key tokenization (`Command.__getitem__`, lines 205-228) -/

/-- The characters Python's `\s` matches on ASCII text. -/
def isPySpace (c : Char) : Bool :=
  c == ' ' || c == '\t' || c == '\n' || c == '\r' || c == '\x0b' || c == '\x0c'

/-- `re.split(r'(?<!\\)\s', key)`: split at every whitespace character that is
not immediately preceded by a backslash.  `acc` holds the current piece in
reverse, so its head is the previously consumed character. -/
def splitUnescaped : List Char → List Char → List (List Char)
  | [], acc => [acc.reverse]
  | c :: cs, acc =>
      if isPySpace c && acc.head? != Option.some '\\' then
        acc.reverse :: splitUnescaped cs []
      else
        splitUnescaped cs (c :: acc)

/-- `re.sub(r'\\(\s)', r'\1', arg)`: unescape backslash-escaped whitespace,
scanning left to right without overlap. -/
def unescapeWs : List Char → List Char
  | '\\' :: c :: cs =>
      if isPySpace c then c :: unescapeWs cs else '\\' :: unescapeWs (c :: cs)
  | c :: cs => c :: unescapeWs cs
  | [] => []

/-- Python `str.isspace()`: nonempty and all whitespace. -/
def pyIsSpaceStr (cs : List Char) : Bool :=
  !cs.isEmpty && cs.all isPySpace

/-- The tokens `Command.__getitem__` appends for a string key: split on
unescaped whitespace, drop empty and whitespace-only pieces, unescape the
rest. -/
def getitemTokens (key : String) : List String :=
  (splitUnescaped key.data []).filterMap (fun piece =>
    if piece.isEmpty || pyIsSpaceStr piece then Option.none
    else Option.some (String.mk (unescapeWs piece)))

/-! ## An object store for the mutation behaviour of the builder API

The builder methods of `src/pysh/dsl/pipeline.py` operate on heap objects:
`Command.args` and `Command.no_raise` are Python lists, so whether an
operation mutates the receiver depends on aliasing — `Command.__copy__` takes
fresh `list(...)` copies of both before any append.  To state that footprint
we model the mutable list cells in an explicit store and commands as records
of references into it. -/

/-- The mutable heap: `argCells` holds the `args` lists, `intCells` the
`no_raise` lists. -/
structure Store where
  argCells : List (List ArgEntry)
  intCells : List (List Int)

/-- Read an `args` cell. -/
def Store.getArgs (s : Store) (r : Nat) : List ArgEntry :=
  (s.argCells[r]?).getD []

/-- Read a `no_raise` cell. -/
def Store.getInts (s : Store) (r : Nat) : List Int :=
  (s.intCells[r]?).getD []

/-- Allocate a fresh `args` list object. -/
def Store.allocArgs (s : Store) (v : List ArgEntry) : Store × Nat :=
  ({ s with argCells := s.argCells ++ [v] }, s.argCells.length)

/-- Allocate a fresh `no_raise` list object. -/
def Store.allocInts (s : Store) (v : List Int) : Store × Nat :=
  ({ s with intCells := s.intCells ++ [v] }, s.intCells.length)

/-- In-place update of an `args` cell (`lst.append`, modelled as writing the
extended contents back to the same cell). -/
def Store.setArgs (s : Store) (r : Nat) (v : List ArgEntry) : Store :=
  { s with argCells := s.argCells.set r v }

/-- A `Command` object: its (immutable, shared) spec object, references to its
two list attributes, and its `reckless` flag. -/
structure CmdObj where
  spec : Nat
  argsRef : Nat
  noRaiseRef : Nat
  reckless : Bool
  deriving DecidableEq, Repr

/-- The observable state of a command object: the contents of its `args` and
`no_raise` lists plus its scalar attributes. -/
def CmdObj.view (s : Store) (c : CmdObj) :
    List ArgEntry × List Int × Bool × Nat :=
  (s.getArgs c.argsRef, s.getInts c.noRaiseRef, c.reckless, c.spec)

/-- Whether the object's references point at allocated cells. -/
def CmdObj.valid (s : Store) (c : CmdObj) : Prop :=
  c.argsRef < s.argCells.length ∧ c.noRaiseRef < s.intCells.length

/-- `Command.__copy__` (lines 182-187): the clone shares `spec`, gets fresh
`list(self.args)` / `list(self.no_raise)` copies, and inherits `reckless`
through `Pipeline.__copy__`. -/
def copyCmd (s : Store) (c : CmdObj) : Store × CmdObj :=
  let a := s.allocArgs (s.getArgs c.argsRef)
  let n := a.1.allocInts (s.getInts c.noRaiseRef)
  (n.1, { spec := c.spec, argsRef := a.2, noRaiseRef := n.2, reckless := c.reckless })

/-- `Command.__call__` (lines 230-233): clone, then
`clone.args.append((args, kwargs))`. -/
def callOp (s : Store) (c : CmdObj) (pos : List Value)
    (kw : List (String × Value)) : Store × CmdObj :=
  let r := copyCmd s c
  (r.1.setArgs r.2.argsRef (r.1.getArgs r.2.argsRef ++ [ArgEntry.group pos kw]), r.2)

/-- `Command.__getitem__` with a string key (lines 205-228): clone, then
append each token of the split key to `clone.args`. -/
def getitemStrOp (s : Store) (c : CmdObj) (key : String) : Store × CmdObj :=
  let r := copyCmd s c
  (r.1.setArgs r.2.argsRef
    (r.1.getArgs r.2.argsRef ++ (getitemTokens key).map ArgEntry.str), r.2)

/-- `Command.__getitem__` with a non-string key: clone, then
`clone.args.append(key)`. -/
def getitemValOp (s : Store) (c : CmdObj) (key : Value) : Store × CmdObj :=
  let r := copyCmd s c
  (r.1.setArgs r.2.argsRef (r.1.getArgs r.2.argsRef ++ [ArgEntry.val key]), r.2)

/-- `Command.catch` (lines 245-282): clone, default the status list to
`range(256)` when empty, then rebind `clone.no_raise` to that new object. -/
def catchOp (s : Store) (c : CmdObj) (statuses : List Int) : Store × CmdObj :=
  let r := copyCmd s c
  let sts := if statuses.isEmpty then (List.range 256).map Int.ofNat else statuses
  let n := r.1.allocInts sts
  (n.1, { r.2 with noRaiseRef := n.2 })

/-- `Pipeline.__invert__` on a `Command` receiver: clone, toggle the clone's
`reckless`. -/
def invertOp (s : Store) (c : CmdObj) : Store × CmdObj :=
  let r := copyCmd s c
  (r.1, { r.2 with reckless := !r.2.reckless })

/-- The `Pipe` object built by `Pipeline.__or__`: references both operand
objects, `reckless` starts `False`. -/
structure PipeObj where
  lhs : CmdObj
  rhs : CmdObj
  reckless : Bool
  deriving DecidableEq, Repr

/-- The `Redirect` object built by `Pipeline.__gt__`. -/
structure RedirObj where
  lhs : CmdObj
  target : RTarget
  appending : Bool
  reckless : Bool
  deriving DecidableEq, Repr

/-- `Pipeline.__or__` (lines 111-117): `Pipe(self, rhs)` — a new object
referencing the operands; the store is untouched. -/
def pipeOp (s : Store) (self rhs : CmdObj) : Store × PipeObj :=
  (s, { lhs := self, rhs := rhs, reckless := false })

/-- `Pipeline.__gt__` on a supported target: `Redirect(self, other)` — a new
object referencing the receiver; the store is untouched. -/
def redirectOp (s : Store) (self : CmdObj) (t : RTarget) : Store × RedirObj :=
  (s, { lhs := self, target := t, appending := false, reckless := false })

/-! ### Store lemmas -/

/-- `copyCmd` appends one fresh cell to each store component. -/
theorem store_copyCmd (s : Store) (c : CmdObj) :
    (copyCmd s c).1 = { argCells := s.argCells ++ [s.getArgs c.argsRef],
                        intCells := s.intCells ++ [s.getInts c.noRaiseRef] } :=
  rfl

/-- The clone produced by `copyCmd`: same spec, references to the two fresh
cells, same `reckless`. -/
theorem refs_copyCmd (s : Store) (c : CmdObj) :
    (copyCmd s c).2 = { spec := c.spec, argsRef := s.argCells.length,
                        noRaiseRef := s.intCells.length, reckless := c.reckless } :=
  rfl

/-- Allocating a fresh `no_raise` cell does not change the view of a valid
object. -/
theorem view_allocInts (s : Store) (c : CmdObj) (v : List Int)
    (hN : c.noRaiseRef < s.intCells.length) :
    CmdObj.view (s.allocInts v).1 c = CmdObj.view s c := by
  simp [CmdObj.view, Store.allocInts, Store.getInts, Store.getArgs,
    List.getElem?_append_left hN]

/-- `copyCmd` does not change the view of a valid object: both its list
attributes are read, copied into fresh cells, and left untouched. -/
theorem view_copyCmd (s : Store) (c : CmdObj) (hA : c.argsRef < s.argCells.length)
    (hN : c.noRaiseRef < s.intCells.length) :
    CmdObj.view (copyCmd s c).1 c = CmdObj.view s c := by
  simp [CmdObj.view, copyCmd, Store.allocArgs, Store.allocInts, Store.getArgs,
    Store.getInts, List.getElem?_append_left, hA, hN]

/-- Writing to the fresh cell allocated by `copyCmd` does not change the view
of the (valid) original object: the receiver's own cell is at a strictly
smaller index. -/
theorem view_setArgs_fresh (s : Store) (c : CmdObj) (v : List ArgEntry)
    (hA : c.argsRef < s.argCells.length) (hN : c.noRaiseRef < s.intCells.length) :
    CmdObj.view ((copyCmd s c).1.setArgs (copyCmd s c).2.argsRef v) c =
      CmdObj.view s c := by
  have hne : s.argCells.length ≠ c.argsRef := ne_of_gt hA
  rw [store_copyCmd, refs_copyCmd]
  simp [CmdObj.view, Store.setArgs, Store.getArgs, Store.getInts,
    List.getElem?_set_ne hne, List.getElem?_append_left hA,
    List.getElem?_append_left hN]

/-! ## Concrete sample objects used by the theorems below -/

/-- A sample stage `A` (spec object 0, no recorded arguments). -/
def cmdA : PNode := .command 0 [] [0] false

/-- A sample stage `B`. -/
def cmdB : PNode := .command 1 [] [0] false

/-- The pipe `A | B` as built by `Pipeline.__or__`. -/
def samplePipe : PNode := .pipe cmdA cmdB false

/-- A spec with the `argspre` separator configured (`argspre='--'`), all other
settings at their defaults. -/
def specSep : ExternalSpec := { command := "cmd", argspre := Option.some "--" }

/-- A spec with every setting at its default. -/
def specDefault : ExternalSpec := { command := "cmd" }

/-- Stage outcome of scenario B's stage `A`: exited 1, only status 0 caught,
not suppressed. -/
def outcomeA : StageOutcome :=
  { status := .exited 1, ignore := [.exited 0], suppressed := false }

/-- Stage outcome of scenario B's stage `B`: exited 0. -/
def outcomeB : StageOutcome :=
  { status := .exited 0, ignore := [.exited 0], suppressed := false }

/-- Monitor state with one still-running job (pid 100). -/
def monIdleState : MonState :=
  { registered := [{ pid := 100, pollResult := Option.none }], cnt := 1 }

/-- A one-object sample store. -/
def storeSample : Store :=
  { argCells := [[ArgEntry.str "a"]], intCells := [[0]] }

/-- A sample command object living in `storeSample`. -/
def cmdObjSample : CmdObj :=
  { spec := 0, argsRef := 0, noRaiseRef := 0, reckless := false }

/-! ## Theorems -/

/-- C1: the aggregated value is the status of the last stage in evaluation
order, the aggregated failure flag is the OR of the unsuppressed per-stage
failures (shown as an iff with an existential), and in particular `A | B`
with A exiting 1 uncaught and B exiting 0 aggregates to status `Exited(0)`
with failure `true`.  The aggregator is modelled from the spec (section 4.6),
as no aggregator is implemented under `src/`. -/
theorem C1_aggregation (stages : List StageOutcome) (h : stages ≠ []) :
    aggregate stages = Option.some ((stages.getLast h).status,
      stages.any (fun o => stageFailing o && !o.suppressed)) ∧
    (stages.any (fun o => stageFailing o && !o.suppressed) = true ↔
      ∃ o ∈ stages, stageFailing o = true ∧ o.suppressed = false) ∧
    aggregate [outcomeA, outcomeB] = Option.some (Status.exited 0, true) := by
  refine ⟨?_, ?_, rfl⟩
  · unfold aggregate
    rw [List.getLast?_eq_getLast_of_ne_nil h]
  · simp [List.any_eq_true, Bool.and_eq_true, Bool.not_eq_true']

/-- C1 witness: the theorem applied to the concrete scenario-B stage list. -/
theorem C1_aggregation_w :
    ([outcomeA, outcomeB] ≠ ([] : List StageOutcome)) ∧
    aggregate [outcomeA, outcomeB] = Option.some (Status.exited 0, true) :=
  ⟨by simp, (C1_aggregation [outcomeA, outcomeB] (by simp)).2.2⟩

/-- C2: a stage terminated by a fatal signal `s` (raw platform poll result
`-s`) is recorded as `Signaled(s)` and never as any `Exited` status — in
particular never `Exited(-s)` (`src/demo-stream.py` lines 216-219). -/
theorem C2_signal_translation (s : Int) (h : 0 < s) :
    statusOfPoll (-s) = Status.signaled s ∧
    ∀ c : Int, statusOfPoll (-s) ≠ Status.exited c := by
  have hneg : (-s) < 0 := by omega
  constructor
  · unfold statusOfPoll
    rw [if_pos hneg, neg_neg]
  · intro c
    unfold statusOfPoll
    rw [if_pos hneg]
    exact fun hc => Status.noConfusion hc

/-- C2 witness: signal 9 is recorded as `Signaled(9)`, not `Exited(-9)`. -/
theorem C2_signal_translation_w :
    statusOfPoll (-9) = Status.signaled 9 ∧ statusOfPoll (-9) ≠ Status.exited (-9) :=
  ⟨(C2_signal_translation 9 (by norm_num)).1,
   (C2_signal_translation 9 (by norm_num)).2 (-9)⟩

/-- C3: double suppress preserves the suppression (`reckless`) state on every
node and is a full identity on `Command` nodes, but on a composite node the
inherited `Pipeline.__copy__` drops the other attributes: `~~(A | B)` is a
bare `Pipe` clone without `lhs`/`rhs`, so it does not behave identically to
the original node. -/
theorem C3_double_suppress :
    (∀ n : PNode, (invert (invert n)).reckless = n.reckless) ∧
    (∀ s a nr r, invert (invert (PNode.command s a nr r)) = PNode.command s a nr r) ∧
    invert (invert samplePipe) = PNode.pipeBare false ∧
    invert (invert samplePipe) ≠ samplePipe := by
  refine ⟨?_, ?_, rfl, ?_⟩
  · intro n
    cases n <;> simp [invert, pcopy, PNode.setReckless, PNode.reckless]
  · intro s a nr r
    simp [invert, pcopy, PNode.setReckless, PNode.reckless]
  · exact fun h => PNode.noConfusion h

/-- C4: the encoder appends a configured `argspre` separator unconditionally,
also when no positional token starts with an option prefix (`['--', 'x']`
where the specified rule yields `['x']`); the conditional rule exists only as
the TODO comment at the cited lines.  The claim's concrete instance with an
option-like positional does hold. -/
theorem C4_argspre_unconditional :
    parse_args specSep [Value.str "x"] [] = ["--", "x"] ∧
    parse_args specSep [Value.str "-x"] [] = ["--", "-x"] :=
  ⟨rfl, rfl⟩

/-- C7: `a > t` with `t` itself a builder node is rejected at build time
(both `__gt__` and the reflected `__lt__` return `NotImplemented`, so Python
raises `TypeError` and no `Redirect` node is produced), while every supported
target — path, string, bytes or open sink — yields `Redirect(a, t)`. -/
theorem C7_redirect_rejects_nodes (a : PNode) :
    (∀ n : PNode, gtDispatch a (.node n) = Except.error "TypeError") ∧
    (∀ t : RTarget, gtDispatch a (.val t) =
      Except.ok (PNode.redirect a t false false)) :=
  ⟨fun _ => rfl, fun _ => rfl⟩

/-- C8: when `selector.select` returns no events (timeout), the monitor loop
of `src/demo-stream.py` polls nothing and leaves its state untouched — the
body prints a TODO and `continue`s — even though a job is still running. -/
theorem C8_timeout_skips_polling :
    (∀ st : MonState, monitorIteration [] st = (([], []), st)) ∧
    monIdleState.registered ≠ [] :=
  ⟨fun _ => rfl, by decide⟩

/-- C5 counterexample: with `argspre` configured (`argspre='--'`) the claimed
equation `encode(spec, [], (opt: false)) = []` fails — the encoder emits the
separator token even though the option itself is suppressed. -/
theorem C5_counterexample :
    parse_args specSep [] [("opt", Value.bool false)] = ["--"] ∧
    (["--"] : List String) ≠ [] :=
  ⟨rfl, by simp⟩

/-- C5 (amended): for every spec and option name, value `True` emits exactly
the prefixed option token and nothing else, `False` and `None` emit no tokens
at all; consequently `encode(spec, [], (opt: false)) = []` for every spec
with no `argspre` separator configured (a configured separator is emitted
unconditionally, see C4). -/
theorem C5_false_suppresses (spec : ExternalSpec) (opt : String) (h : opt ≠ "_") :
    parse_option spec opt (Value.bool true) = [optionToken spec opt] ∧
    parse_option spec opt (Value.bool false) = [] ∧
    parse_option spec opt Value.none = [] ∧
    (spec.argspre = Option.none → parse_args spec [] [(opt, Value.bool false)] = []) := by
  refine ⟨rfl, rfl, rfl, ?_⟩
  intro ha
  simp [parse_args, h, ha, parse_option, strTruthy, Value.isTrue, Value.eqFalseOrNone]

/-- C5 witness: the theorem applied at the default spec and option `opt`. -/
theorem C5_false_suppresses_w :
    parse_option specDefault "opt" (Value.bool false) = [] ∧
    parse_args specDefault [] [("opt", Value.bool false)] = [] :=
  ⟨(C5_false_suppresses specDefault "opt" (by decide)).2.1,
   (C5_false_suppresses specDefault "opt" (by decide)).2.2.2 rfl⟩

/-- C6 counterexample: with `argspre` configured the claimed equation
`encode(spec, [], (opt: [1,2,3])) = [--opt,1,--opt,2,--opt,3]` fails — the
separator token is appended after the options. -/
theorem C6_counterexample :
    parse_args specSep [] [("opt", Value.list [Value.int 1, Value.int 2, Value.int 3])] =
      ["--opt", "1", "--opt", "2", "--opt", "3", "--"] ∧
    (["--opt", "1", "--opt", "2", "--opt", "3", "--"] : List String) ≠
      ["--opt", "1", "--opt", "2", "--opt", "3"] :=
  ⟨by decide, by simp⟩

/-- C6 (amended): with no value separator configured, `repeat=True` emits the
option token before each stringified value in list order, `repeat=sep` emits
the option once with the values joined by `sep`, and `repeat=False` emits the
option once followed by all values as separate tokens (for any `valuepre`,
which that branch ignores); in particular, at the otherwise-default spec
(no `argspre`), `encode(spec, [], (opt: [1,2,3])) = [--opt,1,--opt,2,--opt,3]`. -/
theorem C6_repeat_policies (spec : ExternalSpec) (opt : String) (vs : List Value)
    (hv : strTruthy spec.valuepre = false) :
    (spec.rep = RepeatRule.rtrue →
      parse_option spec opt (Value.list vs) =
        (vs.map (fun v => [optionToken spec opt, pyStr v])).flatten) ∧
    (∀ sep, spec.rep = RepeatRule.joinWith sep →
      parse_option spec opt (Value.list vs) =
        [optionToken spec opt, String.intercalate sep (vs.map pyStr)]) ∧
    (∀ sp : ExternalSpec, sp.rep = RepeatRule.rfalse →
      parse_option sp opt (Value.list vs) = optionToken sp opt :: vs.map pyStr) ∧
    parse_args specDefault []
        [("opt", Value.list [Value.int 1, Value.int 2, Value.int 3])] =
      ["--opt", "1", "--opt", "2", "--opt", "3"] := by
  refine ⟨?_, ?_, ?_, by decide⟩
  · intro hr
    simp [parse_option, hr, emitValues, hv, Value.isTrue, Value.eqFalseOrNone,
      Value.asIterable]
  · intro sep hr
    simp [parse_option, hr, emitValues, hv, Value.isTrue, Value.eqFalseOrNone,
      Value.asIterable, pyStr]
  · intro sp hr
    simp [parse_option, hr, Value.isTrue, Value.eqFalseOrNone, Value.asIterable]

/-- C6 witness: the theorem applied at the default spec, option `opt` and
value list `[1, 2, 3]`. -/
theorem C6_repeat_policies_w :
    parse_option specDefault "opt" (Value.list [Value.int 1, Value.int 2, Value.int 3]) =
      ["--opt", "1", "--opt", "2", "--opt", "3"] := by
  have h := (C6_repeat_policies specDefault "opt"
    [Value.int 1, Value.int 2, Value.int 3] rfl).1 rfl
  rw [h]
  decide

/-- C9: every builder operation is pure with respect to its receiver: after a
call append, a slice append (string or other key), a catch, a suppress, a pipe
or a redirect, the receiver's observable state — the contents of its `args`
and `no_raise` lists, its `reckless` flag and its `spec` — is exactly what it
was, the returned node is a fresh object, and it shares the receiver's spec
object unmodified (pipes and redirects reference the receiver itself and do
not touch the store at all). -/
theorem C9_builder_purity (s : Store) (c : CmdObj)
    (hA : c.argsRef < s.argCells.length) (hN : c.noRaiseRef < s.intCells.length) :
    (∀ pos kw, CmdObj.view (callOp s c pos kw).1 c = CmdObj.view s c ∧
      (callOp s c pos kw).2.spec = c.spec ∧
      (callOp s c pos kw).2.argsRef ≠ c.argsRef) ∧
    (∀ key, CmdObj.view (getitemStrOp s c key).1 c = CmdObj.view s c ∧
      (getitemStrOp s c key).2.spec = c.spec ∧
      (getitemStrOp s c key).2.argsRef ≠ c.argsRef) ∧
    (∀ v, CmdObj.view (getitemValOp s c v).1 c = CmdObj.view s c ∧
      (getitemValOp s c v).2.spec = c.spec) ∧
    (∀ sts, CmdObj.view (catchOp s c sts).1 c = CmdObj.view s c ∧
      (catchOp s c sts).2.spec = c.spec) ∧
    (CmdObj.view (invertOp s c).1 c = CmdObj.view s c ∧
      (invertOp s c).2.spec = c.spec ∧ (invertOp s c).2.reckless = !c.reckless) ∧
    (∀ rhs, pipeOp s c rhs = (s, { lhs := c, rhs := rhs, reckless := false })) ∧
    (∀ t, redirectOp s c t =
      (s, { lhs := c, target := t, appending := false, reckless := false })) := by
  have hfreshA : (copyCmd s c).2.argsRef ≠ c.argsRef := by
    rw [refs_copyCmd]
    exact ne_of_gt hA
  have hN1 : c.noRaiseRef < (copyCmd s c).1.intCells.length := by
    rw [store_copyCmd]
    simp only [List.length_append, List.length_cons, List.length_nil]
    omega
  refine ⟨?_, ?_, ?_, ?_, ?_, fun _ => rfl, fun _ => rfl⟩
  · exact fun pos kw => ⟨view_setArgs_fresh s c _ hA hN, rfl, hfreshA⟩
  · exact fun key => ⟨view_setArgs_fresh s c _ hA hN, rfl, hfreshA⟩
  · exact fun v => ⟨view_setArgs_fresh s c _ hA hN, rfl⟩
  · intro sts
    refine ⟨?_, rfl⟩
    calc CmdObj.view (catchOp s c sts).1 c
        = CmdObj.view (copyCmd s c).1 c := view_allocInts _ c _ hN1
      _ = CmdObj.view s c := view_copyCmd s c hA hN
  · exact ⟨view_copyCmd s c hA hN, rfl, rfl⟩

/-- C9 witness: the theorem applied to the sample store and command object
(for the call operation with an empty argument group). -/
theorem C9_builder_purity_w :
    CmdObj.view (callOp storeSample cmdObjSample [] []).1 cmdObjSample =
      CmdObj.view storeSample cmdObjSample ∧
    (callOp storeSample cmdObjSample [] []).2.spec = cmdObjSample.spec :=
  ⟨((C9_builder_purity storeSample cmdObjSample (by decide) (by decide)).1 [] []).1,
   ((C9_builder_purity storeSample cmdObjSample (by decide) (by decide)).1 [] []).2.1⟩

/-- C10: `to_status` (and `__int__`, which delegates to it) always fails its
`assert isinstance(result, int)`: `invoke` returns a `Result` instance, which
is never an `int`, so the conversion raises `AssertionError` on every
pipeline. -/
theorem C10_to_status_always_asserts (p : PNode) :
    to_status p = Except.error "AssertionError" ∧
    toIntDunder p = Except.error "AssertionError" :=
  ⟨rfl, rfl⟩

end Pysh
